import Mathlib

/-!
# operator-registry: the update orchestrator and the `opm registry add` command

A shallow embedding of `pkg/lib/registry/registry.go` (`AddToRegistry`,
`populate`, `DeleteFromRegistry`) and of `cmd/opm/registry/add.go`
(`newRegistryAddCmd`, `addFunc`).

The collaborators these functions call (database/sql, the sqlite loader and
remover, the containerd image registry, the directory populator, the mode
resolver) are not part of the sources under study.  They are taken as the fields
of an environment `Env σ`: each one is an arbitrary function of an abstract
collaborator state `σ` that returns a Go `error` (here `Option SimpleError`,
`none` standing for `nil`) and the next state.  Every call of a collaborator is
recorded as an `Event`, in program order, so that statements such as "Unpack is
not invoked" or "the Remover is invoked on every package in list order" can be
read off the list of events a function produces.
-/

namespace OperatorRegistry

/-! ## Errors -/

/-- An error value that is not an aggregate.  `ext kind msg` is a value handed back
by a collaborator: `kind` is its identity (the dynamic type or sentinel that
`errors.Is` or a type assertion would recognise), `msg` is what its `Error()`
method prints.  `errorString msg` is the value built by `fmt.Errorf` from a format
without the wrapping verb: a fresh value that carries a message only. -/
inductive SimpleError where
  | ext (kind : String) (msg : String)
  | errorString (msg : String)
  deriving DecidableEq, Repr

/-- The `Error()` method. -/
def SimpleError.Error : SimpleError → String
  | .ext _ msg => msg
  | .errorString msg => msg

/-- A value of the Go interface `error` as the orchestrator hands it to its caller:
either one plain error value, or the `utilerrors.Aggregate` built over a slice of
error values. -/
inductive GoError where
  | simple (e : SimpleError)
  | aggregate (errs : List SimpleError)
  deriving DecidableEq, Repr

/-- The call `fmt.Errorf(pfx + "%s", err)`: the verb `%s` prints `err.Error()`, and
the result is a new error value holding only the formatted text. -/
def Errorf (pfx : String) (err : SimpleError) : SimpleError :=
  .errorString (pfx ++ err.Error)

/-- The function `utilerrors.NewAggregate` of k8s.io/apimachinery: `nil` for an empty
slice, otherwise the aggregate over the slice.  (The library also drops `nil`
entries; a `List SimpleError` has none.) -/
def NewAggregate (errlist : List SimpleError) : Option GoError :=
  match errlist with
  | [] => none
  | e :: es => some (.aggregate (e :: es))

/-! ## Modes, log levels, events -/

/-- Modelled from the spec: the type `registry.Mode` of `pkg/registry`, which is not
among the sources.  The spec names its three values `replaces`, `semver` and
`semver-skippatch`. -/
inductive Mode where
  | ReplacesMode
  | SemVerMode
  | SkipPatchMode
  deriving DecidableEq, Repr

/-- The logrus levels used by the two files. -/
inductive Level where
  | info
  | warn
  | error
  | fatal
  deriving DecidableEq, Repr

/-- One observable step.  All constructors but `populateReturned` are calls into a
collaborator, with the arguments passed and the error received.
`populateReturned ref err` is a marker set by the loop of `AddToRegistry` right
after its call `populate(..., ref, ...)` came back with `err`. -/
inductive Event where
  | sqlOpen (db : String) (err : Option SimpleError)
  | dbClose
  | newSQLLiteLoader (err : Option SimpleError)
  | migrate (err : Option SimpleError)
  | newSQLGraphLoaderFromDB (err : Option SimpleError)
  | newSQLLiteQuerierFromDb
  | newRegistry (skipTLS : Bool) (err : Option SimpleError)
  | destroy (err : Option SimpleError)
  | tempDir (dir : String) (err : Option SimpleError)
  | removeAll (dir : String)
  | pull (ref : String) (err : Option SimpleError)
  | unpack (ref : String) (dir : String) (err : Option SimpleError)
  | directoryPopulate (ref : String) (dir : String) (mode : Mode) (err : Option SimpleError)
  | populateReturned (ref : String) (err : Option SimpleError)
  | remove (pkg : String) (err : Option SimpleError)
  | log (level : Level) (msg : String) (err : Option SimpleError)
  | exit (code : Nat)
  deriving DecidableEq, Repr

/-! ## Collaborators and state -/

/-- The collaborators, as functions of their state `σ`.  `tempDir dirs s` is
`ioutil.TempDir("./", "bundle_tmp")` called while the directories `dirs` exist; it
returns Go's pair `(name, err)`.  `removeAll path` is `os.RemoveAll(path)`.
`directoryPopulate ref dir mode` is
`registry.NewDirectoryPopulator(loader, graphLoader, querier, ref, dir).Populate(mode)`,
the graph update engine.  `remove pkg` is
`sqlite.NewSQLRemoverForPackages(dbLoader, pkg).Remove()`. -/
structure Env (σ : Type) where
  sqlOpen : String → σ → Option SimpleError × σ
  dbClose : σ → Option SimpleError × σ
  newSQLLiteLoader : σ → Option SimpleError × σ
  migrate : σ → Option SimpleError × σ
  newSQLGraphLoaderFromDB : σ → Option SimpleError × σ
  newRegistry : Bool → σ → Option SimpleError × σ
  destroy : σ → Option SimpleError × σ
  tempDir : List String → σ → (String × Option SimpleError) × σ
  removeAll : String → σ → Option SimpleError × σ
  pull : String → σ → Option SimpleError × σ
  unpack : String → String → σ → Option SimpleError × σ
  directoryPopulate : String → String → Mode → σ → Option SimpleError × σ
  remove : String → σ → Option SimpleError × σ
  getModeFromString : String → Except SimpleError Mode

/-- The state a call runs in: the collaborators' state and the temporary working
directories that exist under `./`. -/
structure World (σ : Type) where
  ext : σ
  dirs : List String

/-- What a call yields: the value returned, the state left behind, and the events of
the call in program order. -/
structure Res (σ : Type) (α : Type) where
  ret : α
  world : World σ
  events : List Event

/-- The call `os.RemoveAll(path)` with its result discarded, as in
`defer os.RemoveAll(workingDir)`.  The call can fail.  When it returns `nil` the path
no longer exists; when it returns an error the directory is still there. -/
def RemoveAll {σ : Type} (env : Env σ) (path : String) (w : World σ) : World σ :=
  match env.removeAll path w.ext with
  | (none, s) => ⟨s, w.dirs.filter (fun d => d ≠ path)⟩
  | (some _, s) => ⟨s, w.dirs⟩

/-! ## `populate` (registry.go, lines 83-101) -/

/-- Lines 90-100 of `populate`: what runs between the creation of the working
directory and the deferred removal. -/
def populateBody {σ : Type} (env : Env σ) (ref : String) (workingDir : String)
    (mode : Mode) (w : World σ) : Res σ (Option SimpleError) :=
  -- if err = reg.Pull(ctx, ref); err != nil { return err }
  match env.pull ref w.ext with
  | (some err, s1) => ⟨some err, { w with ext := s1 }, [Event.pull ref (some err)]⟩
  | (none, s1) =>
    -- if err = reg.Unpack(ctx, ref, workingDir); err != nil { return err }
    match env.unpack ref workingDir s1 with
    | (some err, s2) =>
      ⟨some err, { w with ext := s2 },
        [Event.pull ref none, Event.unpack ref workingDir (some err)]⟩
    | (none, s2) =>
      -- populator := registry.NewDirectoryPopulator(...); return populator.Populate(mode)
      match env.directoryPopulate ref workingDir mode s2 with
      | (err, s3) =>
        ⟨err, { w with ext := s3 },
          [Event.pull ref none, Event.unpack ref workingDir none,
           Event.directoryPopulate ref workingDir mode err]⟩

/-- The function `populate`. -/
def populate {σ : Type} (env : Env σ) (ref : String) (mode : Mode) (w : World σ) :
    Res σ (Option SimpleError) :=
  -- workingDir, err := ioutil.TempDir("./", "bundle_tmp"); if err != nil { return err }
  match env.tempDir w.dirs w.ext with
  | ((dir, some err), s0) => ⟨some err, { w with ext := s0 }, [Event.tempDir dir (some err)]⟩
  | ((workingDir, none), s0) =>
    let r := populateBody env ref workingDir mode ⟨s0, w.dirs ++ [workingDir]⟩
    -- defer os.RemoveAll(workingDir)
    ⟨r.ret, RemoveAll env workingDir r.world,
      Event.tempDir workingDir none :: (r.events ++ [Event.removeAll workingDir])⟩

/-! ## `AddToRegistry` (registry.go, lines 31-81) -/

/-- The request type `AddToRegistryRequest`. -/
structure AddToRegistryRequest where
  Permissive : Bool
  SkipTLS : Bool
  InputDatabase : String
  Bundles : List String
  Mode : Mode
  deriving DecidableEq, Repr

/-- Lines 68-78: the loop over `request.Bundles`, with the slice `errs` as
accumulator. -/
def addLoop {σ : Type} (env : Env σ) (request : AddToRegistryRequest) :
    List String → World σ → List SimpleError → Res σ (List SimpleError)
  | [], w, errs => ⟨errs, w, []⟩
  | ref :: rest, w, errs =>
    -- if err := populate(..., image.SimpleReference(ref), request.Mode); err != nil
    let p := populate env ref request.Mode w
    let evs := p.events ++ [Event.populateReturned ref p.ret]
    match p.ret with
    | none =>
      let r := addLoop env request rest p.world errs
      ⟨r.ret, r.world, evs ++ r.events⟩
    | some e =>
      -- err = fmt.Errorf("error loading bundle from image: %s", err)
      let err := Errorf "error loading bundle from image: " e
      if !request.Permissive then
        -- r.Logger.WithError(err).Error("permissive mode disabled"); errs = append(errs, err)
        let r := addLoop env request rest p.world (errs ++ [err])
        ⟨r.ret, r.world,
          evs ++ Event.log Level.error "permissive mode disabled" (some err) :: r.events⟩
      else
        -- r.Logger.WithError(err).Warn("permissive mode enabled")
        let r := addLoop env request rest p.world errs
        ⟨r.ret, r.world,
          evs ++ Event.log Level.warn "permissive mode enabled" (some err) :: r.events⟩

/-- Lines 55-80: from the construction of the image registry to the return. -/
def addWithLoaders {σ : Type} (env : Env σ) (request : AddToRegistryRequest)
    (w : World σ) : Res σ (Option GoError) :=
  -- reg, destroy, err := containerdregistry.NewRegistry(SkipTLS(request.SkipTLS))
  match env.newRegistry request.SkipTLS w.ext with
  | (some err, s1) =>
    ⟨some (.simple err), { w with ext := s1 },
      [Event.newRegistry request.SkipTLS (some err)]⟩
  | (none, s1) =>
    let l := addLoop env request request.Bundles { w with ext := s1 } []
    -- return utilerrors.NewAggregate(errs), then the deferred destroy()
    match env.destroy l.world.ext with
    | (some derr, s2) =>
      ⟨NewAggregate l.ret, { l.world with ext := s2 },
        Event.newRegistry request.SkipTLS none :: (l.events ++
          [Event.destroy (some derr),
           Event.log Level.warn "error destroying internal image registry" (some derr)])⟩
    | (none, s2) =>
      ⟨NewAggregate l.ret, { l.world with ext := s2 },
        Event.newRegistry request.SkipTLS none :: (l.events ++ [Event.destroy none])⟩

/-- Lines 40-80: what runs between `sql.Open` and the deferred `db.Close()`. -/
def addWithDB {σ : Type} (env : Env σ) (request : AddToRegistryRequest)
    (w : World σ) : Res σ (Option GoError) :=
  -- dbLoader, err := sqlite.NewSQLLiteLoader(db)
  match env.newSQLLiteLoader w.ext with
  | (some err, s1) =>
    ⟨some (.simple err), { w with ext := s1 }, [Event.newSQLLiteLoader (some err)]⟩
  | (none, s1) =>
    -- if err := dbLoader.Migrate(context.TODO()); err != nil { return err }
    match env.migrate s1 with
    | (some err, s2) =>
      ⟨some (.simple err), { w with ext := s2 },
        [Event.newSQLLiteLoader none, Event.migrate (some err)]⟩
    | (none, s2) =>
      -- graphLoader, err := sqlite.NewSQLGraphLoaderFromDB(db)
      match env.newSQLGraphLoaderFromDB s2 with
      | (some err, s3) =>
        ⟨some (.simple err), { w with ext := s3 },
          [Event.newSQLLiteLoader none, Event.migrate none,
           Event.newSQLGraphLoaderFromDB (some err)]⟩
      | (none, s3) =>
        -- dbQuerier := sqlite.NewSQLLiteQuerierFromDb(db)
        let r := addWithLoaders env request { w with ext := s3 }
        ⟨r.ret, r.world,
          [Event.newSQLLiteLoader none, Event.migrate none,
           Event.newSQLGraphLoaderFromDB none, Event.newSQLLiteQuerierFromDb] ++ r.events⟩

/-- The method `RegistryUpdater.AddToRegistry`.  The receiver holds the logger only;
what is logged appears as `Event.log`. -/
def AddToRegistry {σ : Type} (env : Env σ) (request : AddToRegistryRequest)
    (w : World σ) : Res σ (Option GoError) :=
  -- db, err := sql.Open("sqlite3", request.InputDatabase); if err != nil { return err }
  match env.sqlOpen request.InputDatabase w.ext with
  | (some err, s0) =>
    ⟨some (.simple err), { w with ext := s0 }, [Event.sqlOpen request.InputDatabase (some err)]⟩
  | (none, s0) =>
    let r := addWithDB env request { w with ext := s0 }
    -- defer db.Close()
    ⟨r.ret, { r.world with ext := (env.dbClose r.world.ext).2 },
      Event.sqlOpen request.InputDatabase none :: (r.events ++ [Event.dbClose])⟩

/-! ## `DeleteFromRegistry` (registry.go, lines 103-137) -/

/-- The request type `DeleteFromRegistryRequest`. -/
structure DeleteFromRegistryRequest where
  Permissive : Bool
  InputDatabase : String
  Packages : List String
  deriving DecidableEq, Repr

/-- How a call ends: it returns an `error` to its caller, or the process is
terminated with an exit status before any return statement is reached. -/
inductive Outcome where
  | returned (err : Option GoError)
  | exited (code : Nat)
  deriving DecidableEq, Repr

/-- Lines 124-136: the loop over `request.Packages`.

In the strict branch the source calls `logrus.WithError(err).Fatal(...)` on the
package-level logger.  The logrus `Fatal` writes the entry and then calls
`Logger.Exit(1)`, whose exit function is `os.Exit` unless it is replaced (nothing
in the sources replaces it): the process ends there, the `return err` on the next
line is not reached, and no deferred call runs. -/
def deleteLoop {σ : Type} (env : Env σ) (request : DeleteFromRegistryRequest) :
    List String → World σ → Res σ Outcome
  | [], w => ⟨Outcome.returned none, w, []⟩
  | pkg :: rest, w =>
    -- remover := sqlite.NewSQLRemoverForPackages(dbLoader, pkg); err := remover.Remove()
    match env.remove pkg w.ext with
    | (none, s1) =>
      let r := deleteLoop env request rest { w with ext := s1 }
      ⟨r.ret, r.world, Event.remove pkg none :: r.events⟩
    | (some e, s1) =>
      -- err = fmt.Errorf("error deleting packages from database: %s", err)
      let err := Errorf "error deleting packages from database: " e
      if !request.Permissive then
        -- logrus.WithError(err).Fatal("permissive mode disabled")
        ⟨Outcome.exited 1, { w with ext := s1 },
          [Event.remove pkg (some e),
           Event.log Level.fatal "permissive mode disabled" (some err), Event.exit 1]⟩
      else
        -- logrus.WithError(err).Warn("permissive mode enabled")
        let r := deleteLoop env request rest { w with ext := s1 }
        ⟨r.ret, r.world,
          Event.remove pkg (some e) ::
            Event.log Level.warn "permissive mode enabled" (some err) :: r.events⟩

/-- Lines 116-136: what runs between `sql.Open` and the deferred `db.Close()`. -/
def deleteWithDB {σ : Type} (env : Env σ) (request : DeleteFromRegistryRequest)
    (w : World σ) : Res σ Outcome :=
  -- dbLoader, err := sqlite.NewSQLLiteLoader(db)
  match env.newSQLLiteLoader w.ext with
  | (some err, s1) =>
    ⟨Outcome.returned (some (.simple err)), { w with ext := s1 },
      [Event.newSQLLiteLoader (some err)]⟩
  | (none, s1) =>
    -- if err := dbLoader.Migrate(context.TODO()); err != nil { return err }
    match env.migrate s1 with
    | (some err, s2) =>
      ⟨Outcome.returned (some (.simple err)), { w with ext := s2 },
        [Event.newSQLLiteLoader none, Event.migrate (some err)]⟩
    | (none, s2) =>
      let r := deleteLoop env request request.Packages { w with ext := s2 }
      ⟨r.ret, r.world, [Event.newSQLLiteLoader none, Event.migrate none] ++ r.events⟩

/-- The method `RegistryUpdater.DeleteFromRegistry`.  The deferred `db.Close()` runs
when the function returns; it does not run when the process exits. -/
def DeleteFromRegistry {σ : Type} (env : Env σ) (request : DeleteFromRegistryRequest)
    (w : World σ) : Res σ Outcome :=
  -- db, err := sql.Open("sqlite3", request.InputDatabase); if err != nil { return err }
  match env.sqlOpen request.InputDatabase w.ext with
  | (some err, s0) =>
    ⟨Outcome.returned (some (.simple err)), { w with ext := s0 },
      [Event.sqlOpen request.InputDatabase (some err)]⟩
  | (none, s0) =>
    let r := deleteWithDB env request { w with ext := s0 }
    match r.ret with
    | Outcome.returned err =>
      -- defer db.Close()
      ⟨Outcome.returned err, { r.world with ext := (env.dbClose r.world.ext).2 },
        Event.sqlOpen request.InputDatabase none :: (r.events ++ [Event.dbClose])⟩
    | Outcome.exited code =>
      ⟨Outcome.exited code, r.world, Event.sqlOpen request.InputDatabase none :: r.events⟩

/-! ## The command `opm registry add` (add.go) -/

/-- The value held by a command-line flag. -/
inductive FlagValue where
  | bool (b : Bool)
  | string (s : String)
  | stringSlice (ss : List String)
  deriving DecidableEq, Repr

/-- One defined flag: its name and its current value (the default until it is set). -/
structure Flag where
  name : String
  value : FlagValue
  deriving DecidableEq, Repr

/-- The flag set of a command, `cmd.Flags()`. -/
abbrev FlagSet := List Flag

/-- The value of the flag called `name`, if one is defined. -/
def FlagSet.lookup (fs : FlagSet) (name : String) : Option FlagValue :=
  match fs with
  | [] => none
  | f :: rest => if f.name = name then some f.value else FlagSet.lookup rest name

/-- Setting a defined flag on the command line: the value replaces the default. -/
def FlagSet.Set (fs : FlagSet) (name : String) (v : FlagValue) : FlagSet :=
  fs.map (fun f => if f.name = name then { f with value := v } else f)

/-- The error of the pflag getters for a flag that is not defined. -/
def flagNotDefined (name : String) : SimpleError :=
  .ext "pflag" ("flag accessed but not defined: " ++ name)

/-- The name pflag gives to the type of a flag value. -/
def FlagValue.typeName : FlagValue → String
  | .bool _ => "bool"
  | .string _ => "string"
  | .stringSlice _ => "stringSlice"

/-- The error of the pflag getters for a flag of another type. -/
def flagWrongType (ftype : String) (v : FlagValue) : SimpleError :=
  .ext "pflag" ("trying to get " ++ ftype ++ " value of flag of type " ++ v.typeName)

/-- The getter `cmd.Flags().GetBool(name)`. -/
def GetBool (fs : FlagSet) (name : String) : Except SimpleError Bool :=
  match fs.lookup name with
  | some (.bool b) => .ok b
  | some v => .error (flagWrongType "bool" v)
  | none => .error (flagNotDefined name)

/-- The getter `cmd.Flags().GetString(name)`. -/
def GetString (fs : FlagSet) (name : String) : Except SimpleError String :=
  match fs.lookup name with
  | some (.string s) => .ok s
  | some v => .error (flagWrongType "string" v)
  | none => .error (flagNotDefined name)

/-- The getter `cmd.Flags().GetStringSlice(name)`. -/
def GetStringSlice (fs : FlagSet) (name : String) : Except SimpleError (List String) :=
  match fs.lookup name with
  | some (.stringSlice ss) => .ok ss
  | some v => .error (flagWrongType "stringSlice" v)
  | none => .error (flagNotDefined name)

/-- The flags `newRegistryAddCmd` defines (lines 27-34), each with its default. -/
def newRegistryAddCmd : FlagSet :=
  [ ⟨"debug", .bool false⟩,
    ⟨"database", .string "bundles.db"⟩,
    ⟨"bundle-images", .stringSlice []⟩,
    ⟨"permissive", .bool false⟩,
    ⟨"skip-tls", .bool false⟩,
    ⟨"mode", .string "replaces"⟩,
    ⟨"container-tool", .string ""⟩ ]

/-- The flag set after the command line set the flags listed in `given`, in order. -/
def parseFlags (fs : FlagSet) (given : List (String × FlagValue)) : FlagSet :=
  given.foldl (fun acc a => acc.Set a.1 a.2) fs

/-- The function `addFunc` (lines 42-89), run on a command whose flag set is `cmd`.
`registry.NewRegistryAdder(logger)` is declared outside the two source files; it is
taken to return the `RegistryUpdater` whose `AddToRegistry` is the method above. -/
def addFunc {σ : Type} (env : Env σ) (cmd : FlagSet) (w : World σ) :
    Res σ (Option GoError) :=
  match GetBool cmd "permissive" with
  | .error err => ⟨some (.simple err), w, []⟩
  | .ok permissive =>
    match GetBool cmd "skip-tls" with
    | .error err => ⟨some (.simple err), w, []⟩
    | .ok skipTLS =>
      match GetString cmd "database" with
      | .error err => ⟨some (.simple err), w, []⟩
      | .ok fromFilename =>
        match GetStringSlice cmd "bundle-images" with
        | .error err => ⟨some (.simple err), w, []⟩
        | .ok bundleImages =>
          match GetString cmd "mode" with
          | .error err => ⟨some (.simple err), w, []⟩
          | .ok mode =>
            -- modeEnum, err := reg.GetModeFromString(mode); if err != nil { return err }
            match env.getModeFromString mode with
            | .error err => ⟨some (.simple err), w, []⟩
            | .ok modeEnum =>
              let request : AddToRegistryRequest :=
                { Permissive := permissive, SkipTLS := skipTLS,
                  InputDatabase := fromFilename, Bundles := bundleImages, Mode := modeEnum }
              -- logger.Info("adding to the registry"); err = registryAdder.AddToRegistry(request)
              let r := AddToRegistry env request w
              ⟨r.ret, r.world, Event.log Level.info "adding to the registry" none :: r.events⟩

/-! ## A concrete environment -/

/-- Modelled from the spec: the mode resolver `registry.GetModeFromString` of
`pkg/registry`, which is not among the sources.  The spec: it "takes a
configuration string, returns the corresponding ordering policy or fails with an
`InvalidMode` error listing the accepted values (`replaces`, `semver`,
`semver-skippatch`)". -/
def GetModeFromString (mode : String) : Except SimpleError Mode :=
  if mode = "replaces" then .ok Mode.ReplacesMode
  else if mode = "semver" then .ok Mode.SemVerMode
  else if mode = "semver-skippatch" then .ok Mode.SkipPatchMode
  else .error (.ext "InvalidMode"
    ("invalid mode " ++ mode ++ ", must be one of: replaces, semver, semver-skippatch"))

/-- Modelled from the spec: the Remover of `pkg/sqlite`, which is not among the
sources, over a store given as the list of package names that have rows.  The
spec: it "deletes all rows for a named package; fails with `PackageNotFound` if
absent". -/
def specRemove (pkg : String) (store : List String) : Option SimpleError × List String :=
  if pkg ∈ store then (none, store.filter (fun p => p ≠ pkg))
  else (some (.ext "PackageNotFound" ("package " ++ pkg ++ " not found")), store)

/-- The state of the concrete environment: the names committed to the store, and
how many times `ioutil.TempDir` has been called. -/
structure DemoState where
  store : List String
  tempDirCalls : Nat
  deriving DecidableEq, Repr

/-- An environment to evaluate the functions in.  The setup step called `bad` fails;
with `bad = "tempdir"` the second call of `ioutil.TempDir` fails; with
`bad = "removeall"` every `os.RemoveAll` fails; pulling `bad-pull`,
unpacking `bad-unpack` and populating from `bad-bundle` fail; every other bundle is
committed under its reference; the Remover is `specRemove`. -/
def demoEnv (bad : String) : Env DemoState where
  sqlOpen := fun _ s =>
    (if bad = "open" then some (.ext "sqlite3" "unable to open database file") else none, s)
  dbClose := fun s => (none, s)
  newSQLLiteLoader := fun s =>
    (if bad = "loader" then some (.ext "sqlite3" "cannot enable foreign keys") else none, s)
  migrate := fun s =>
    (if bad = "migrate" then some (.ext "sqlite3" "migration failed") else none, s)
  newSQLGraphLoaderFromDB := fun s =>
    (if bad = "graph" then some (.ext "sqlite3" "no graph loader") else none, s)
  newRegistry := fun _ s =>
    (if bad = "registry" then some (.ext "containerd" "no cache directory") else none, s)
  destroy := fun s => (none, s)
  tempDir := fun _ s =>
    if bad = "tempdir" ∧ s.tempDirCalls = 1 then
      (("", some (.ext "os" "mkdir ./bundle_tmp042: no space left on device")),
        { s with tempDirCalls := s.tempDirCalls + 1 })
    else (("./bundle_tmp042", none), { s with tempDirCalls := s.tempDirCalls + 1 })
  removeAll := fun _ s =>
    (if bad = "removeall" then
        some (.ext "os" "unlinkat ./bundle_tmp042/manifests: permission denied")
      else none, s)
  pull := fun ref s =>
    (if ref = "bad-pull" then some (.ext "net" "connection refused") else none, s)
  unpack := fun ref _ s =>
    (if ref = "bad-unpack" then some (.ext "tar" "unexpected EOF") else none, s)
  directoryPopulate := fun ref _ _ s =>
    if ref = "bad-bundle" then (some (.ext "GraphCycle" "cycle in channel graph"), s)
    else (none, { s with store := s.store ++ [ref] })
  remove := fun pkg s =>
    ((specRemove pkg s.store).1, { s with store := (specRemove pkg s.store).2 })
  getModeFromString := GetModeFromString

/-- A state with two packages stored and one unrelated directory under `./`. -/
def demoWorld : World DemoState := ⟨⟨["etcd", "prometheus"], 0⟩, ["./manifests"]⟩

/-! ## Reading a list of events -/

/-- Is the event a call of `Pull`? -/
def Event.isPull : Event → Bool
  | .pull _ _ => true
  | _ => false

/-- Is the event a call of `Unpack`? -/
def Event.isUnpack : Event → Bool
  | .unpack _ _ _ => true
  | _ => false

/-- Is the event a call of the engine, `populator.Populate(mode)`? -/
def Event.isDirectoryPopulate : Event → Bool
  | .directoryPopulate _ _ _ _ => true
  | _ => false

/-- Is the event a call of `ioutil.TempDir`? -/
def Event.isTempDir : Event → Bool
  | .tempDir _ _ => true
  | _ => false

/-- Does the event belong to the handling of a bundle (anything `populate` does, or
the marker of its return)? -/
def Event.isBundleStep : Event → Bool
  | .tempDir _ _ => true
  | .removeAll _ => true
  | .pull _ _ => true
  | .unpack _ _ _ => true
  | .directoryPopulate _ _ _ _ => true
  | .populateReturned _ _ => true
  | _ => false

/-- The reference and the result of a call of `populate` made by the loop. -/
def Event.populateResult : Event → Option (String × Option SimpleError)
  | .populateReturned ref err => some (ref, err)
  | _ => none

/-- The calls of `populate` made by the loop of `AddToRegistry`, in order, each with
the error it returned. -/
def populateResults (evs : List Event) : List (String × Option SimpleError) :=
  evs.filterMap Event.populateResult

/-- The package and the result of a call of the Remover. -/
def Event.removeResult : Event → Option (String × Option SimpleError)
  | .remove pkg err => some (pkg, err)
  | _ => none

/-- The calls of the Remover, in order, each with the error it returned. -/
def removeResults (evs : List Event) : List (String × Option SimpleError) :=
  evs.filterMap Event.removeResult

/-- Does `needle` occur in `text` as a run of consecutive characters? -/
def mentions (text : String) (needle : String) : Bool :=
  text.toList.tails.any (fun t => needle.toList.isPrefixOf t)

/-- The error the loop of `AddToRegistry` builds for a call of `populate`, if that call
failed. -/
def wrapAdd (p : String × Option SimpleError) : Option SimpleError :=
  p.2.map (fun e => SimpleError.errorString ("error loading bundle from image: " ++ e.Error))

/-- What was logged, in order: level, message and the error attached. -/
def Event.logged : Event → Option (Level × String × Option SimpleError)
  | .log level msg err => some (level, msg, err)
  | _ => none

/-- The log entries among the events. -/
def logEntries (evs : List Event) : List (Level × String × Option SimpleError) :=
  evs.filterMap Event.logged

/-- Is the event one of the collaborator calls `populate` makes? -/
def Event.isPopulateStep : Event → Bool
  | .tempDir _ _ => true
  | .removeAll _ => true
  | .pull _ _ => true
  | .unpack _ _ _ => true
  | .directoryPopulate _ _ _ _ => true
  | _ => false

/-- The spec's reading of a batch in which no failure stops the loop ("for each
reference, sequentially ... continue to the next bundle"): `populate` is run on every
reference, in list order, each run starting in the state the previous one left.  The
value is the list of references with the error each run returned; the events are those
of the runs, one run after the other. -/
def attemptAll {σ : Type} (env : Env σ) (mode : Mode) :
    List String → World σ → Res σ (List (String × Option SimpleError))
  | [], w => ⟨[], w, []⟩
  | ref :: rest, w =>
    let p := populate env ref mode w
    let r := attemptAll env mode rest p.world
    ⟨(ref, p.ret) :: r.ret, r.world, p.events ++ r.events⟩

/-- The spec's reading of a deletion in which no failure stops the loop ("for each
package name, invoke Remover"): the Remover is run on every package, in list order,
each run starting in the state the previous one left.  The value is the list of
packages with the error each run returned, and the state after the last run. -/
def removeEach {σ : Type} (env : Env σ) :
    List String → σ → List (String × Option SimpleError) × σ
  | [], s => ([], s)
  | pkg :: rest, s =>
    let r := env.remove pkg s
    let t := removeEach env rest r.2
    ((pkg, r.1) :: t.1, t.2)

/-- The events of `AddToRegistry` before the loop when every setup step succeeds. -/
def addSetupEvents (req : AddToRegistryRequest) : List Event :=
  [Event.sqlOpen req.InputDatabase none, Event.newSQLLiteLoader none, Event.migrate none,
   Event.newSQLGraphLoaderFromDB none, Event.newSQLLiteQuerierFromDb,
   Event.newRegistry req.SkipTLS none]

/-! ## `populate` -/

theorem filter_append_fresh (dir : String) (dirs : List String) (h : dir ∉ dirs) :
    (dirs ++ [dir]).filter (fun d => d ≠ dir) = dirs := by
  have h1 : dirs.filter (fun d => decide (d ≠ dir)) = dirs := by
    apply List.filter_eq_self.mpr
    intro a ha
    have : a ≠ dir := fun heq => h (heq ▸ ha)
    simpa using this
  rw [List.filter_append, h1]
  simp

theorem RemoveAll_dirs_ok {σ : Type} (env : Env σ) (path : String) (w : World σ)
    (h : (env.removeAll path w.ext).1 = none) :
    (RemoveAll env path w).dirs = w.dirs.filter (fun d => d ≠ path) := by
  unfold RemoveAll
  split
  · rfl
  · next e s heq => rw [heq] at h; cases h

theorem RemoveAll_dirs_fail {σ : Type} (env : Env σ) (path : String) (w : World σ)
    (e : SimpleError) (h : (env.removeAll path w.ext).1 = some e) :
    (RemoveAll env path w).dirs = w.dirs := by
  unfold RemoveAll
  split
  · next s heq => rw [heq] at h; cases h
  · rfl

theorem populateBody_dirs {σ : Type} (env : Env σ) (ref dir : String) (mode : Mode)
    (w : World σ) : (populateBody env ref dir mode w).world.dirs = w.dirs := by
  unfold populateBody
  split
  · rfl
  · split
    · rfl
    · rfl

/-- C5, as stated, fails.  `populate` creates `./bundle_tmp042`, the bundle is pulled,
unpacked and committed, the deferred `os.RemoveAll` returns an error that the source
discards, and when `populate` returns the directory is still there: the working
directories after the call are not those before it. -/
theorem populate_leaves_workdir_when_removal_fails :
    (populate (demoEnv "removeall") "quay.io/a:v1" Mode.ReplacesMode demoWorld).events
      = [Event.tempDir "./bundle_tmp042" none, Event.pull "quay.io/a:v1" none,
         Event.unpack "quay.io/a:v1" "./bundle_tmp042" none,
         Event.directoryPopulate "quay.io/a:v1" "./bundle_tmp042" Mode.ReplacesMode none,
         Event.removeAll "./bundle_tmp042"] ∧
    (populate (demoEnv "removeall") "quay.io/a:v1" Mode.ReplacesMode demoWorld).world.dirs
      = ["./manifests", "./bundle_tmp042"] ∧
    (populate (demoEnv "removeall") "quay.io/a:v1" Mode.ReplacesMode demoWorld).world.dirs
      ≠ demoWorld.dirs := by
  decide

/-- C5, amended.  When `ioutil.TempDir` fails, `populate` leaves the working directories
as they were.  When it creates a directory, that creation is the first step, `Pull` the
second, and the call `os.RemoveAll` on that directory the last step on every exit path;
if that call succeeds (and the directory was new) the directory is gone when `populate`
returns and the working directories are those before the call; if that call fails the
directory is left behind. -/
theorem populate_workdir_scoped {σ : Type} (env : Env σ) (ref : String) (mode : Mode)
    (w : World σ) :
    (∀ dir e s0, env.tempDir w.dirs w.ext = ((dir, some e), s0) →
      (populate env ref mode w).world.dirs = w.dirs) ∧
    (∀ dir s0, env.tempDir w.dirs w.ext = ((dir, none), s0) →
      (∃ perr mid, (populate env ref mode w).events =
        Event.tempDir dir none :: Event.pull ref perr :: (mid ++ [Event.removeAll dir]) ∧
        ∀ ev ∈ mid, ev.isTempDir = false ∧ ev ≠ Event.removeAll dir) ∧
      (dir ∉ w.dirs →
        (env.removeAll dir
          (populateBody env ref dir mode ⟨s0, w.dirs ++ [dir]⟩).world.ext).1 = none →
        (populate env ref mode w).world.dirs = w.dirs ∧
        dir ∉ (populate env ref mode w).world.dirs) ∧
      (∀ e, (env.removeAll dir
          (populateBody env ref dir mode ⟨s0, w.dirs ++ [dir]⟩).world.ext).1 = some e →
        (populate env ref mode w).world.dirs = w.dirs ++ [dir])) := by
  refine ⟨?_, ?_⟩
  · intro dir e s0 h0
    simp [populate, h0]
  · intro dir s0 h0
    refine ⟨?_, ?_, ?_⟩
    · unfold populate
      simp only [h0]
      unfold populateBody
      simp only
      split
      · next err s1 h1 => exact ⟨some err, [], by simp⟩
      · split
        · next err s2 h2 =>
          exact ⟨none, [Event.unpack ref dir (some err)], by simp [Event.isTempDir]⟩
        · refine ⟨none, [Event.unpack ref dir none, Event.directoryPopulate ref dir mode _],
            rfl, ?_⟩
          simp [Event.isTempDir]
    · intro hfresh hrm
      have hd : (populate env ref mode w).world.dirs = w.dirs := by
        unfold populate
        simp only [h0]
        rw [RemoveAll_dirs_ok env dir _ hrm, populateBody_dirs]
        exact filter_append_fresh dir w.dirs hfresh
      exact ⟨hd, by rw [hd]; exact hfresh⟩
    · intro e hrm
      unfold populate
      simp only [h0]
      rw [RemoveAll_dirs_fail env dir _ e hrm, populateBody_dirs]

/-- C8. In `populate`, a failure of `Pull` is returned as it is and neither `Unpack` nor
the engine is called; a failure of `Unpack` after a successful `Pull` is returned as it
is and the engine is not called; and on every path `Pull`, `Unpack` and the engine are
each called at most once. -/
theorem populate_surfaces_image_source_failure {σ : Type} (env : Env σ) (ref : String)
    (mode : Mode) (w : World σ) :
    (∀ dir s0 e s1, env.tempDir w.dirs w.ext = ((dir, none), s0) →
      env.pull ref s0 = (some e, s1) →
      (populate env ref mode w).ret = some e ∧
      (populate env ref mode w).events =
        [Event.tempDir dir none, Event.pull ref (some e), Event.removeAll dir]) ∧
    (∀ dir s0 s1 e s2, env.tempDir w.dirs w.ext = ((dir, none), s0) →
      env.pull ref s0 = (none, s1) → env.unpack ref dir s1 = (some e, s2) →
      (populate env ref mode w).ret = some e ∧
      (populate env ref mode w).events =
        [Event.tempDir dir none, Event.pull ref none, Event.unpack ref dir (some e),
         Event.removeAll dir]) ∧
    (((populate env ref mode w).events.filter Event.isPull).length ≤ 1 ∧
     ((populate env ref mode w).events.filter Event.isUnpack).length ≤ 1 ∧
     ((populate env ref mode w).events.filter Event.isDirectoryPopulate).length ≤ 1) := by
  refine ⟨?_, ?_, ?_⟩
  · intro dir s0 e s1 h0 h1
    simp [populate, populateBody, h0, h1]
  · intro dir s0 s1 e s2 h0 h1 h2
    simp [populate, populateBody, h0, h1, h2]
  · unfold populate
    split
    · simp [Event.isPull, Event.isUnpack, Event.isDirectoryPopulate]
    · unfold populateBody
      simp only
      split
      · simp [Event.isPull, Event.isUnpack, Event.isDirectoryPopulate]
      · split
        · simp [Event.isPull, Event.isUnpack, Event.isDirectoryPopulate]
        · simp [Event.isPull, Event.isUnpack, Event.isDirectoryPopulate]

/-! ## The loop of `AddToRegistry` -/

/-- The four shapes a run of `populate` can take. -/
theorem populate_cases {σ : Type} (env : Env σ) (ref : String) (mode : Mode) (w : World σ) :
    (∃ dir e, (populate env ref mode w).ret = some e ∧
      (populate env ref mode w).events = [Event.tempDir dir (some e)]) ∨
    (∃ dir e, (populate env ref mode w).ret = some e ∧
      (populate env ref mode w).events =
        [Event.tempDir dir none, Event.pull ref (some e), Event.removeAll dir]) ∨
    (∃ dir e, (populate env ref mode w).ret = some e ∧
      (populate env ref mode w).events =
        [Event.tempDir dir none, Event.pull ref none, Event.unpack ref dir (some e),
         Event.removeAll dir]) ∨
    (∃ dir, (populate env ref mode w).events =
        [Event.tempDir dir none, Event.pull ref none, Event.unpack ref dir none,
         Event.directoryPopulate ref dir mode (populate env ref mode w).ret,
         Event.removeAll dir]) := by
  unfold populate
  split
  · next dir err s0 h0 => exact Or.inl ⟨dir, err, rfl, rfl⟩
  · next dir s0 h0 =>
    unfold populateBody
    simp only
    split
    · next err s1 h1 => exact Or.inr (Or.inl ⟨dir, err, rfl, rfl⟩)
    · split
      · next err s2 h2 => exact Or.inr (Or.inr (Or.inl ⟨dir, err, rfl, rfl⟩))
      · exact Or.inr (Or.inr (Or.inr ⟨dir, rfl⟩))

theorem populateResults_append (a b : List Event) :
    populateResults (a ++ b) = populateResults a ++ populateResults b := by
  simp [populateResults, List.filterMap_append]

theorem populateResults_cons (e : Event) (b : List Event) :
    populateResults (e :: b) = populateResults [e] ++ populateResults b :=
  populateResults_append [e] b

theorem populateResults_marker (ref : String) (err : Option SimpleError) (l : List Event) :
    populateResults (Event.populateReturned ref err :: l) = (ref, err) :: populateResults l := by
  simp [populateResults, Event.populateResult]

theorem populateResults_log (v : Level) (msg : String) (err : Option SimpleError)
    (l : List Event) : populateResults (Event.log v msg err :: l) = populateResults l := by
  simp [populateResults, Event.populateResult]

theorem populate_no_marker {σ : Type} (env : Env σ) (ref : String) (mode : Mode)
    (w : World σ) : populateResults (populate env ref mode w).events = [] := by
  rcases populate_cases env ref mode w with ⟨d, e, _, h⟩ | ⟨d, e, _, h⟩ | ⟨d, e, _, h⟩ | ⟨d, h⟩ <;>
    rw [h] <;> simp [populateResults, Event.populateResult]

theorem populate_one_tempDir {σ : Type} (env : Env σ) (ref : String) (mode : Mode)
    (w : World σ) : ((populate env ref mode w).events.filter Event.isTempDir).length = 1 := by
  rcases populate_cases env ref mode w with ⟨d, e, _, h⟩ | ⟨d, e, _, h⟩ | ⟨d, e, _, h⟩ | ⟨d, h⟩ <;>
    rw [h] <;> simp [Event.isTempDir]

theorem populate_success_engine {σ : Type} (env : Env σ) (ref : String) (mode : Mode)
    (w : World σ) (h : (populate env ref mode w).ret = none) :
    ∃ dir, Event.directoryPopulate ref dir mode none ∈ (populate env ref mode w).events := by
  rcases populate_cases env ref mode w with ⟨d, e, hr, _⟩ | ⟨d, e, hr, _⟩ | ⟨d, e, hr, _⟩ | ⟨d, hd⟩
  · rw [h] at hr; cases hr
  · rw [h] at hr; cases hr
  · rw [h] at hr; cases hr
  · refine ⟨d, ?_⟩
    rw [hd, h]
    simp

theorem addLoop_attempts {σ : Type} (env : Env σ) (req : AddToRegistryRequest) :
    ∀ (refs : List String) (w : World σ) (errs : List SimpleError),
      (populateResults (addLoop env req refs w errs).events).map Prod.fst = refs := by
  intro refs
  induction refs with
  | nil => intro w errs; simp [addLoop, populateResults]
  | cons ref rest ih =>
    intro w errs
    unfold addLoop
    simp only
    split
    · simp [populateResults_append, populate_no_marker, populateResults_marker, ih]
    · split <;>
        simp [populateResults_append, populate_no_marker, populateResults_marker,
          populateResults_log, ih]

theorem addLoop_errs {σ : Type} (env : Env σ) (req : AddToRegistryRequest) :
    ∀ (refs : List String) (w : World σ) (errs : List SimpleError),
      (addLoop env req refs w errs).ret =
        errs ++ (if req.Permissive then []
                 else (populateResults (addLoop env req refs w errs).events).filterMap wrapAdd) := by
  intro refs
  induction refs with
  | nil => intro w errs; simp [addLoop, populateResults]
  | cons ref rest ih =>
    intro w errs
    unfold addLoop
    simp only
    split
    · next hnone =>
      rw [ih]
      simp [populateResults_append, populate_no_marker, populateResults_marker, wrapAdd, hnone]
    · next e hsome =>
      split
      · next hp =>
        rw [ih]
        have hp2 : req.Permissive = false := by simpa using hp
        simp [populateResults_append, populate_no_marker, populateResults_marker,
          populateResults_log, wrapAdd, hsome, hp2, Errorf]
      · next hp =>
        rw [ih]
        have hp2 : req.Permissive = true := by simpa using hp
        simp [hp2]

theorem addLoop_tempDirs {σ : Type} (env : Env σ) (req : AddToRegistryRequest) :
    ∀ (refs : List String) (w : World σ) (errs : List SimpleError),
      ((addLoop env req refs w errs).events.filter Event.isTempDir).length = refs.length := by
  intro refs
  induction refs with
  | nil => intro w errs; simp [addLoop]
  | cons ref rest ih =>
    intro w errs
    unfold addLoop
    simp only
    split
    · simp [List.filter_append, populate_one_tempDir, Event.isTempDir, ih]
      omega
    · split <;>
      · simp [List.filter_append, populate_one_tempDir, Event.isTempDir, ih]
        omega

theorem addLoop_success_engine {σ : Type} (env : Env σ) (req : AddToRegistryRequest) :
    ∀ (refs : List String) (w : World σ) (errs : List SimpleError) (ref : String),
      (ref, none) ∈ populateResults (addLoop env req refs w errs).events →
      ∃ dir, Event.directoryPopulate ref dir req.Mode none ∈
        (addLoop env req refs w errs).events := by
  intro refs
  induction refs with
  | nil => intro w errs ref h; simp [addLoop, populateResults] at h
  | cons r rest ih =>
    intro w errs ref
    unfold addLoop
    simp only
    split
    · next hnone =>
      intro h
      simp only [populateResults_append, populate_no_marker, List.nil_append, List.cons_append,
        populateResults_marker, List.mem_cons, Prod.mk.injEq] at h
      rcases h with ⟨hr, _⟩ | h
      · obtain ⟨dir, hd⟩ := populate_success_engine env r req.Mode w hnone
        exact ⟨dir, by simp [hr, hd]⟩
      · obtain ⟨dir, hd⟩ := ih _ _ ref h
        exact ⟨dir, by simp [hd]⟩
    · next e hsome =>
      split
      · intro h
        simp only [populateResults_append, populate_no_marker, List.nil_append, List.cons_append,
          populateResults_marker, populateResults_log, List.mem_cons, Prod.mk.injEq] at h
        rcases h with ⟨_, hr⟩ | h
        · rw [hsome] at hr; cases hr
        · obtain ⟨dir, hd⟩ := ih _ _ ref h
          exact ⟨dir, by simp [hd]⟩
      · intro h
        simp only [populateResults_append, populate_no_marker, List.nil_append, List.cons_append,
          populateResults_marker, populateResults_log, List.mem_cons, Prod.mk.injEq] at h
        rcases h with ⟨_, hr⟩ | h
        · rw [hsome] at hr; cases hr
        · obtain ⟨dir, hd⟩ := ih _ _ ref h
          exact ⟨dir, by simp [hd]⟩

/-- When every setup step succeeds, `AddToRegistry` is the setup, the loop, and the two
deferred calls; it returns the aggregate of the errors the loop collected. -/
theorem AddToRegistry_of_setup {σ : Type} (env : Env σ) (req : AddToRegistryRequest)
    (w : World σ) (s0 s1 s2 s3 s4 : σ)
    (h1 : env.sqlOpen req.InputDatabase w.ext = (none, s0))
    (h2 : env.newSQLLiteLoader s0 = (none, s1))
    (h3 : env.migrate s1 = (none, s2))
    (h4 : env.newSQLGraphLoaderFromDB s2 = (none, s3))
    (h5 : env.newRegistry req.SkipTLS s3 = (none, s4)) :
    (AddToRegistry env req w).ret =
      NewAggregate (addLoop env req req.Bundles ⟨s4, w.dirs⟩ []).ret ∧
    ∃ post, (AddToRegistry env req w).events =
        addSetupEvents req ++ (addLoop env req req.Bundles ⟨s4, w.dirs⟩ []).events ++ post ∧
      populateResults post = [] ∧ post.filter Event.isTempDir = [] := by
  unfold AddToRegistry
  simp only [h1]
  unfold addWithDB
  simp only [h2, h3, h4]
  unfold addWithLoaders
  simp only [h5]
  split
  · next derr s5 hd =>
    refine ⟨rfl, [Event.destroy (some derr),
      Event.log Level.warn "error destroying internal image registry" (some derr),
      Event.dbClose], ?_, ?_, ?_⟩
    · simp [addSetupEvents]
    · simp [populateResults, Event.populateResult]
    · simp [Event.isTempDir]
  · next s5 hd =>
    refine ⟨rfl, [Event.destroy none, Event.dbClose], ?_, ?_, ?_⟩
    · simp [addSetupEvents]
    · simp [populateResults, Event.populateResult]
    · simp [Event.isTempDir]

theorem AddToRegistry_results_of_setup {σ : Type} (env : Env σ) (req : AddToRegistryRequest)
    (w : World σ) (s0 s1 s2 s3 s4 : σ)
    (h1 : env.sqlOpen req.InputDatabase w.ext = (none, s0))
    (h2 : env.newSQLLiteLoader s0 = (none, s1))
    (h3 : env.migrate s1 = (none, s2))
    (h4 : env.newSQLGraphLoaderFromDB s2 = (none, s3))
    (h5 : env.newRegistry req.SkipTLS s3 = (none, s4)) :
    populateResults (AddToRegistry env req w).events =
      populateResults (addLoop env req req.Bundles ⟨s4, w.dirs⟩ []).events ∧
    ((AddToRegistry env req w).events.filter Event.isTempDir).length = req.Bundles.length := by
  obtain ⟨_, post, hev, hp1, hp2⟩ := AddToRegistry_of_setup env req w s0 s1 s2 s3 s4 h1 h2 h3 h4 h5
  constructor
  · rw [hev, populateResults_append, populateResults_append, hp1]
    simp [addSetupEvents, populateResults, Event.populateResult]
  · rw [hev, List.filter_append, List.filter_append, hp2]
    simp [addSetupEvents, Event.isTempDir, addLoop_tempDirs]

theorem NewAggregate_eq_none (l : List SimpleError) : NewAggregate l = none ↔ l = [] := by
  cases l <;> simp [NewAggregate]

theorem filterMap_wrapAdd_eq_nil (l : List (String × Option SimpleError)) :
    l.filterMap wrapAdd = [] ↔ ∀ p ∈ l, p.2 = none := by
  induction l with
  | nil => simp
  | cons a rest ih =>
    rcases a with ⟨r, _ | e⟩
    · simp [List.filterMap_cons, wrapAdd, ih]
    · simp [List.filterMap_cons, wrapAdd]

/-! ## `AddToRegistry` -/

/-- C1. With `Permissive = false` and a successful setup, `AddToRegistry` calls
`populate` once for every reference of the request, in list order (one `TempDir` call
per reference), whatever the earlier calls returned; it returns the aggregate of one
error per failed call, in the order of the calls, each with the message
"error loading bundle from image: " followed by the message of the failure; and it
returns `nil` exactly when no call failed. -/
theorem AddToRegistry_strict_collects_every_failure {σ : Type} (env : Env σ)
    (req : AddToRegistryRequest) (w : World σ) (s0 s1 s2 s3 s4 : σ)
    (hperm : req.Permissive = false)
    (h1 : env.sqlOpen req.InputDatabase w.ext = (none, s0))
    (h2 : env.newSQLLiteLoader s0 = (none, s1))
    (h3 : env.migrate s1 = (none, s2))
    (h4 : env.newSQLGraphLoaderFromDB s2 = (none, s3))
    (h5 : env.newRegistry req.SkipTLS s3 = (none, s4)) :
    (populateResults (AddToRegistry env req w).events).map Prod.fst = req.Bundles ∧
    ((AddToRegistry env req w).events.filter Event.isTempDir).length = req.Bundles.length ∧
    (AddToRegistry env req w).ret =
      NewAggregate ((populateResults (AddToRegistry env req w).events).filterMap
        (fun p => p.2.map (fun e =>
          SimpleError.errorString ("error loading bundle from image: " ++ e.Error)))) ∧
    ((AddToRegistry env req w).ret = none ↔
      ∀ p ∈ populateResults (AddToRegistry env req w).events, p.2 = none) := by
  obtain ⟨hret, _⟩ := AddToRegistry_of_setup env req w s0 s1 s2 s3 s4 h1 h2 h3 h4 h5
  obtain ⟨hres, htmp⟩ :=
    AddToRegistry_results_of_setup env req w s0 s1 s2 s3 s4 h1 h2 h3 h4 h5
  have herrs := addLoop_errs env req req.Bundles ⟨s4, w.dirs⟩ []
  rw [hperm] at herrs
  simp only [List.nil_append, Bool.false_eq_true, if_false] at herrs
  have hagg : (AddToRegistry env req w).ret =
      NewAggregate ((populateResults (AddToRegistry env req w).events).filterMap wrapAdd) := by
    rw [hret, hres, ← herrs]
  refine ⟨?_, htmp, hagg, ?_⟩
  · rw [hres]; exact addLoop_attempts env req req.Bundles _ _
  · rw [hagg, NewAggregate_eq_none, filterMap_wrapAdd_eq_nil]

/-- Witness for C1: a strict batch of three in which the second pull fails. -/
theorem AddToRegistry_strict_collects_every_failure_witness :
    (populateResults (AddToRegistry (demoEnv "")
        ⟨false, false, "bundles.db", ["quay.io/a:v1", "bad-pull", "quay.io/c:v1"],
          Mode.ReplacesMode⟩ demoWorld).events).map Prod.fst
      = ["quay.io/a:v1", "bad-pull", "quay.io/c:v1"] ∧
    (AddToRegistry (demoEnv "")
        ⟨false, false, "bundles.db", ["quay.io/a:v1", "bad-pull", "quay.io/c:v1"],
          Mode.ReplacesMode⟩ demoWorld).ret
      = some (GoError.aggregate
          [SimpleError.errorString "error loading bundle from image: connection refused"]) := by
  have h := AddToRegistry_strict_collects_every_failure (demoEnv "")
    ⟨false, false, "bundles.db", ["quay.io/a:v1", "bad-pull", "quay.io/c:v1"],
      Mode.ReplacesMode⟩ demoWorld demoWorld.ext demoWorld.ext demoWorld.ext demoWorld.ext
    demoWorld.ext rfl rfl rfl rfl rfl rfl
  exact ⟨h.1, by decide⟩

theorem populate_steps {σ : Type} (env : Env σ) (ref : String) (mode : Mode)
    (w : World σ) :
    (populate env ref mode w).events.filter Event.isPopulateStep
      = (populate env ref mode w).events := by
  rcases populate_cases env ref mode w with ⟨d, e, _, h⟩ | ⟨d, e, _, h⟩ | ⟨d, e, _, h⟩ | ⟨d, h⟩ <;>
    rw [h] <;> simp [Event.isPopulateStep]

/-- The loop of `AddToRegistry` runs `populate` on every reference, in order, each run
in the state the previous one left: its collaborator calls, its markers and its final
state are those of `attemptAll`. -/
theorem addLoop_attemptAll {σ : Type} (env : Env σ) (req : AddToRegistryRequest) :
    ∀ (refs : List String) (w : World σ) (errs : List SimpleError),
      (addLoop env req refs w errs).events.filter Event.isPopulateStep
        = (attemptAll env req.Mode refs w).events ∧
      populateResults (addLoop env req refs w errs).events
        = (attemptAll env req.Mode refs w).ret ∧
      (addLoop env req refs w errs).world = (attemptAll env req.Mode refs w).world := by
  intro refs
  induction refs with
  | nil => intro w errs; simp [addLoop, attemptAll, populateResults]
  | cons ref rest ih =>
    intro w errs
    unfold addLoop attemptAll
    simp only
    split
    · next hnone =>
      obtain ⟨h1, h2, h3⟩ := ih (populate env ref req.Mode w).world errs
      refine ⟨?_, ?_, h3⟩
      · simp [List.filter_append, populate_steps, Event.isPopulateStep, h1]
      · simp [populateResults_append, populate_no_marker, populateResults_marker, h2]
    · next e hsome =>
      split
      · obtain ⟨h1, h2, h3⟩ := ih (populate env ref req.Mode w).world
          (errs ++ [Errorf "error loading bundle from image: " e])
        refine ⟨?_, ?_, h3⟩
        · simp [List.filter_append, populate_steps, Event.isPopulateStep, h1]
        · simp [populateResults_append, populate_no_marker, populateResults_marker,
            populateResults_log, h2]
      · obtain ⟨h1, h2, h3⟩ := ih (populate env ref req.Mode w).world errs
        refine ⟨?_, ?_, h3⟩
        · simp [List.filter_append, populate_steps, Event.isPopulateStep, h1]
        · simp [populateResults_append, populate_no_marker, populateResults_marker,
            populateResults_log, h2]

/-- When every setup step succeeds, the collaborator calls `AddToRegistry` makes for
bundles are those of its loop, and it leaves the state of the loop after the deferred
`destroy()` and `db.Close()`. -/
theorem AddToRegistry_steps_of_setup {σ : Type} (env : Env σ) (req : AddToRegistryRequest)
    (w : World σ) (s0 s1 s2 s3 s4 : σ)
    (h1 : env.sqlOpen req.InputDatabase w.ext = (none, s0))
    (h2 : env.newSQLLiteLoader s0 = (none, s1))
    (h3 : env.migrate s1 = (none, s2))
    (h4 : env.newSQLGraphLoaderFromDB s2 = (none, s3))
    (h5 : env.newRegistry req.SkipTLS s3 = (none, s4)) :
    (AddToRegistry env req w).events.filter Event.isPopulateStep
      = (addLoop env req req.Bundles ⟨s4, w.dirs⟩ []).events.filter Event.isPopulateStep ∧
    (AddToRegistry env req w).world.dirs
      = (addLoop env req req.Bundles ⟨s4, w.dirs⟩ []).world.dirs ∧
    (AddToRegistry env req w).world.ext
      = (env.dbClose
          (env.destroy (addLoop env req req.Bundles ⟨s4, w.dirs⟩ []).world.ext).2).2 := by
  unfold AddToRegistry
  simp only [h1]
  unfold addWithDB
  simp only [h2, h3, h4]
  unfold addWithLoaders
  simp only [h5]
  split
  · next derr s5 hd =>
    simp [List.filter_append, Event.isPopulateStep, hd]
  · next s5 hd =>
    simp [List.filter_append, Event.isPopulateStep, hd]

/-- C3. With `Permissive = true` and a successful setup, `AddToRegistry` runs `populate`
on every reference of the request, in list order, each run in the state the previous
one left, whatever the earlier runs returned: its collaborator calls for bundles, the
errors of the runs and the state it leaves are those of `attemptAll` on the whole list
(followed by the deferred `destroy()` and `db.Close()`); and it returns `nil`. -/
theorem AddToRegistry_permissive_returns_nil {σ : Type} (env : Env σ)
    (req : AddToRegistryRequest) (w : World σ) (s0 s1 s2 s3 s4 : σ)
    (hperm : req.Permissive = true)
    (h1 : env.sqlOpen req.InputDatabase w.ext = (none, s0))
    (h2 : env.newSQLLiteLoader s0 = (none, s1))
    (h3 : env.migrate s1 = (none, s2))
    (h4 : env.newSQLGraphLoaderFromDB s2 = (none, s3))
    (h5 : env.newRegistry req.SkipTLS s3 = (none, s4)) :
    (populateResults (AddToRegistry env req w).events).map Prod.fst = req.Bundles ∧
    ((AddToRegistry env req w).events.filter Event.isTempDir).length = req.Bundles.length ∧
    (AddToRegistry env req w).ret = none ∧
    (AddToRegistry env req w).events.filter Event.isPopulateStep
      = (attemptAll env req.Mode req.Bundles ⟨s4, w.dirs⟩).events ∧
    populateResults (AddToRegistry env req w).events
      = (attemptAll env req.Mode req.Bundles ⟨s4, w.dirs⟩).ret ∧
    (AddToRegistry env req w).world.dirs
      = (attemptAll env req.Mode req.Bundles ⟨s4, w.dirs⟩).world.dirs ∧
    (AddToRegistry env req w).world.ext
      = (env.dbClose
          (env.destroy (attemptAll env req.Mode req.Bundles ⟨s4, w.dirs⟩).world.ext).2).2 := by
  obtain ⟨hret, _⟩ := AddToRegistry_of_setup env req w s0 s1 s2 s3 s4 h1 h2 h3 h4 h5
  obtain ⟨hres, htmp⟩ :=
    AddToRegistry_results_of_setup env req w s0 s1 s2 s3 s4 h1 h2 h3 h4 h5
  obtain ⟨hsteps, hdirs, hext⟩ :=
    AddToRegistry_steps_of_setup env req w s0 s1 s2 s3 s4 h1 h2 h3 h4 h5
  obtain ⟨ha1, ha2, ha3⟩ := addLoop_attemptAll env req req.Bundles ⟨s4, w.dirs⟩ []
  have herrs := addLoop_errs env req req.Bundles ⟨s4, w.dirs⟩ []
  rw [hperm] at herrs
  simp only [List.nil_append, if_true] at herrs
  refine ⟨?_, htmp, ?_, ?_, ?_, ?_, ?_⟩
  · rw [hres]; exact addLoop_attempts env req req.Bundles _ _
  · rw [hret, herrs]; rfl
  · rw [hsteps, ha1]
  · rw [hres, ha2]
  · rw [hdirs, ha3]
  · rw [hext, ha3]

/-- Witness for C3: a permissive batch in which every kind of bundle failure occurs.
Every reference is pulled, the last one is committed to the store, and `nil` is
returned. -/
theorem AddToRegistry_permissive_returns_nil_witness :
    (AddToRegistry (demoEnv "")
        ⟨true, false, "bundles.db", ["bad-pull", "bad-unpack", "bad-bundle", "quay.io/c:v1"],
          Mode.SemVerMode⟩ demoWorld).ret = none ∧
    (AddToRegistry (demoEnv "")
        ⟨true, false, "bundles.db", ["bad-pull", "bad-unpack", "bad-bundle", "quay.io/c:v1"],
          Mode.SemVerMode⟩ demoWorld).events.filter Event.isPopulateStep
      = [Event.tempDir "./bundle_tmp042" none,
         Event.pull "bad-pull" (some (SimpleError.ext "net" "connection refused")),
         Event.removeAll "./bundle_tmp042",
         Event.tempDir "./bundle_tmp042" none, Event.pull "bad-unpack" none,
         Event.unpack "bad-unpack" "./bundle_tmp042"
           (some (SimpleError.ext "tar" "unexpected EOF")),
         Event.removeAll "./bundle_tmp042",
         Event.tempDir "./bundle_tmp042" none, Event.pull "bad-bundle" none,
         Event.unpack "bad-bundle" "./bundle_tmp042" none,
         Event.directoryPopulate "bad-bundle" "./bundle_tmp042" Mode.SemVerMode
           (some (SimpleError.ext "GraphCycle" "cycle in channel graph")),
         Event.removeAll "./bundle_tmp042",
         Event.tempDir "./bundle_tmp042" none, Event.pull "quay.io/c:v1" none,
         Event.unpack "quay.io/c:v1" "./bundle_tmp042" none,
         Event.directoryPopulate "quay.io/c:v1" "./bundle_tmp042" Mode.SemVerMode none,
         Event.removeAll "./bundle_tmp042"] ∧
    populateResults (AddToRegistry (demoEnv "")
        ⟨true, false, "bundles.db", ["bad-pull", "bad-unpack", "bad-bundle", "quay.io/c:v1"],
          Mode.SemVerMode⟩ demoWorld).events
      = [("bad-pull", some (SimpleError.ext "net" "connection refused")),
         ("bad-unpack", some (SimpleError.ext "tar" "unexpected EOF")),
         ("bad-bundle", some (SimpleError.ext "GraphCycle" "cycle in channel graph")),
         ("quay.io/c:v1", none)] ∧
    (AddToRegistry (demoEnv "")
        ⟨true, false, "bundles.db", ["bad-pull", "bad-unpack", "bad-bundle", "quay.io/c:v1"],
          Mode.SemVerMode⟩ demoWorld).world.ext
      = ⟨["etcd", "prometheus", "quay.io/c:v1"], 4⟩ := by
  have h := AddToRegistry_permissive_returns_nil (demoEnv "")
    ⟨true, false, "bundles.db", ["bad-pull", "bad-unpack", "bad-bundle", "quay.io/c:v1"],
      Mode.SemVerMode⟩ demoWorld demoWorld.ext demoWorld.ext demoWorld.ext demoWorld.ext
    demoWorld.ext rfl rfl rfl rfl rfl rfl
  exact ⟨h.2.2.1, h.2.2.2.1.trans (by decide), h.2.2.2.2.1.trans (by decide),
    h.2.2.2.2.2.2.trans (by decide)⟩

/-- C6, as stated, fails.  In a strict batch of three where only the second reference
fails (its `ioutil.TempDir` call finds no space), the aggregate holds one error, and
the message of that error does not contain the failing reference. -/
theorem AddToRegistry_error_does_not_name_reference :
    populateResults (AddToRegistry (demoEnv "tempdir")
        ⟨false, false, "bundles.db", ["quay.io/etcd:v1", "quay.io/prom:v2", "quay.io/vault:v3"],
          Mode.ReplacesMode⟩ demoWorld).events
      = [("quay.io/etcd:v1", none),
         ("quay.io/prom:v2",
           some (SimpleError.ext "os" "mkdir ./bundle_tmp042: no space left on device")),
         ("quay.io/vault:v3", none)] ∧
    ¬ ∃ e, (AddToRegistry (demoEnv "tempdir")
        ⟨false, false, "bundles.db", ["quay.io/etcd:v1", "quay.io/prom:v2", "quay.io/vault:v3"],
          Mode.ReplacesMode⟩ demoWorld).ret = some (GoError.aggregate [e]) ∧
      mentions e.Error "quay.io/prom:v2" = true := by
  refine ⟨by decide, ?_⟩
  rintro ⟨e, he, hm⟩
  have hret : (AddToRegistry (demoEnv "tempdir")
        ⟨false, false, "bundles.db", ["quay.io/etcd:v1", "quay.io/prom:v2", "quay.io/vault:v3"],
          Mode.ReplacesMode⟩ demoWorld).ret
      = some (GoError.aggregate [SimpleError.errorString
          "error loading bundle from image: mkdir ./bundle_tmp042: no space left on device"]) := by
    decide
  rw [hret] at he
  injection he with he
  injection he with he
  injection he with he
  subst he
  revert hm
  decide

/-- C6, amended.  In a strict batch of three with a successful setup in which only the
call of `populate` for the middle reference fails, `AddToRegistry` returns an aggregate
of exactly one error, whose message is "error loading bundle from image: " followed by
the message of that failure, and the engine was called for the first and for the third
reference and returned `nil` for both. -/
theorem AddToRegistry_strict_middle_failure {σ : Type} (env : Env σ)
    (req : AddToRegistryRequest) (w : World σ) (s0 s1 s2 s3 s4 : σ) (a b c : String)
    (e : SimpleError)
    (hperm : req.Permissive = false)
    (h1 : env.sqlOpen req.InputDatabase w.ext = (none, s0))
    (h2 : env.newSQLLiteLoader s0 = (none, s1))
    (h3 : env.migrate s1 = (none, s2))
    (h4 : env.newSQLGraphLoaderFromDB s2 = (none, s3))
    (h5 : env.newRegistry req.SkipTLS s3 = (none, s4))
    (hres : populateResults (AddToRegistry env req w).events
      = [(a, none), (b, some e), (c, none)]) :
    req.Bundles = [a, b, c] ∧
    (AddToRegistry env req w).ret = some (GoError.aggregate
      [SimpleError.errorString ("error loading bundle from image: " ++ e.Error)]) ∧
    (∃ dir, Event.directoryPopulate a dir req.Mode none ∈ (AddToRegistry env req w).events) ∧
    (∃ dir, Event.directoryPopulate c dir req.Mode none ∈ (AddToRegistry env req w).events) := by
  obtain ⟨hret, post, hev, _, _⟩ :=
    AddToRegistry_of_setup env req w s0 s1 s2 s3 s4 h1 h2 h3 h4 h5
  obtain ⟨hres2, _⟩ :=
    AddToRegistry_results_of_setup env req w s0 s1 s2 s3 s4 h1 h2 h3 h4 h5
  have hatt := addLoop_attempts env req req.Bundles ⟨s4, w.dirs⟩ []
  have herrs := addLoop_errs env req req.Bundles ⟨s4, w.dirs⟩ []
  rw [hperm] at herrs
  rw [← hres2, hres] at hatt herrs
  have hengine : ∀ ref, (ref, none) ∈ [(a, none), (b, some e), (c, none)] →
      ∃ dir, Event.directoryPopulate ref dir req.Mode none ∈
        (AddToRegistry env req w).events := by
    intro ref hmem
    rw [← hres, hres2] at hmem
    obtain ⟨dir, hd⟩ := addLoop_success_engine env req req.Bundles ⟨s4, w.dirs⟩ [] ref hmem
    exact ⟨dir, by rw [hev]; simp [hd]⟩
  refine ⟨?_, ?_, hengine a (by simp), hengine c (by simp)⟩
  · simpa using hatt.symm
  · rw [hret, herrs]
    simp [wrapAdd, NewAggregate]

/-- Witness for the amended C6: the strict batch whose middle pull is refused. -/
theorem AddToRegistry_strict_middle_failure_witness :
    (AddToRegistry (demoEnv "")
        ⟨false, false, "bundles.db", ["quay.io/a:v1", "bad-pull", "quay.io/c:v1"],
          Mode.ReplacesMode⟩ demoWorld).ret
      = some (GoError.aggregate
          [SimpleError.errorString "error loading bundle from image: connection refused"]) ∧
    (∃ dir, Event.directoryPopulate "quay.io/a:v1" dir Mode.ReplacesMode none ∈
      (AddToRegistry (demoEnv "")
        ⟨false, false, "bundles.db", ["quay.io/a:v1", "bad-pull", "quay.io/c:v1"],
          Mode.ReplacesMode⟩ demoWorld).events) ∧
    (∃ dir, Event.directoryPopulate "quay.io/c:v1" dir Mode.ReplacesMode none ∈
      (AddToRegistry (demoEnv "")
        ⟨false, false, "bundles.db", ["quay.io/a:v1", "bad-pull", "quay.io/c:v1"],
          Mode.ReplacesMode⟩ demoWorld).events) :=
  (AddToRegistry_strict_middle_failure (demoEnv "")
    ⟨false, false, "bundles.db", ["quay.io/a:v1", "bad-pull", "quay.io/c:v1"],
      Mode.ReplacesMode⟩ demoWorld demoWorld.ext demoWorld.ext demoWorld.ext demoWorld.ext
    demoWorld.ext "quay.io/a:v1" "bad-pull" "quay.io/c:v1"
    (SimpleError.ext "net" "connection refused") rfl rfl rfl rfl rfl rfl (by decide)).2

/-- C10. If a setup step of `AddToRegistry` fails (opening the database, building the
loader, `Migrate`, building the graph loader, or building the image registry, each
after the earlier steps succeeded), `AddToRegistry` returns the error of that step as
it is and does nothing for any bundle, for either value of `Permissive`. -/
theorem AddToRegistry_setup_failure {σ : Type} (env : Env σ) (req : AddToRegistryRequest)
    (w : World σ) (e : SimpleError)
    (h : (∃ s0, env.sqlOpen req.InputDatabase w.ext = (some e, s0)) ∨
         (∃ s0 s1, env.sqlOpen req.InputDatabase w.ext = (none, s0) ∧
            env.newSQLLiteLoader s0 = (some e, s1)) ∨
         (∃ s0 s1 s2, env.sqlOpen req.InputDatabase w.ext = (none, s0) ∧
            env.newSQLLiteLoader s0 = (none, s1) ∧ env.migrate s1 = (some e, s2)) ∨
         (∃ s0 s1 s2 s3, env.sqlOpen req.InputDatabase w.ext = (none, s0) ∧
            env.newSQLLiteLoader s0 = (none, s1) ∧ env.migrate s1 = (none, s2) ∧
            env.newSQLGraphLoaderFromDB s2 = (some e, s3)) ∨
         (∃ s0 s1 s2 s3 s4, env.sqlOpen req.InputDatabase w.ext = (none, s0) ∧
            env.newSQLLiteLoader s0 = (none, s1) ∧ env.migrate s1 = (none, s2) ∧
            env.newSQLGraphLoaderFromDB s2 = (none, s3) ∧
            env.newRegistry req.SkipTLS s3 = (some e, s4))) :
    (AddToRegistry env req w).ret = some (GoError.simple e) ∧
    ∀ ev ∈ (AddToRegistry env req w).events, ev.isBundleStep = false := by
  rcases h with ⟨s0, h1⟩ | ⟨s0, s1, h1, h2⟩ | ⟨s0, s1, s2, h1, h2, h3⟩ |
    ⟨s0, s1, s2, s3, h1, h2, h3, h4⟩ | ⟨s0, s1, s2, s3, s4, h1, h2, h3, h4, h5⟩
  · simp [AddToRegistry, h1, Event.isBundleStep]
  · simp [AddToRegistry, addWithDB, h1, h2, Event.isBundleStep]
  · simp [AddToRegistry, addWithDB, h1, h2, h3, Event.isBundleStep]
  · simp [AddToRegistry, addWithDB, h1, h2, h3, h4, Event.isBundleStep]
  · simp [AddToRegistry, addWithDB, addWithLoaders, h1, h2, h3, h4, h5, Event.isBundleStep]

/-- Witness for C10: one failing setup step at a time, in permissive mode. -/
theorem AddToRegistry_setup_failure_witness :
    (AddToRegistry (demoEnv "open") ⟨true, false, "bundles.db", ["quay.io/a:v1"],
        Mode.ReplacesMode⟩ demoWorld).ret
      = some (GoError.simple (SimpleError.ext "sqlite3" "unable to open database file")) ∧
    (AddToRegistry (demoEnv "loader") ⟨true, false, "bundles.db", ["quay.io/a:v1"],
        Mode.ReplacesMode⟩ demoWorld).ret
      = some (GoError.simple (SimpleError.ext "sqlite3" "cannot enable foreign keys")) ∧
    (AddToRegistry (demoEnv "migrate") ⟨true, false, "bundles.db", ["quay.io/a:v1"],
        Mode.ReplacesMode⟩ demoWorld).ret
      = some (GoError.simple (SimpleError.ext "sqlite3" "migration failed")) ∧
    (AddToRegistry (demoEnv "graph") ⟨true, false, "bundles.db", ["quay.io/a:v1"],
        Mode.ReplacesMode⟩ demoWorld).ret
      = some (GoError.simple (SimpleError.ext "sqlite3" "no graph loader")) ∧
    (AddToRegistry (demoEnv "registry") ⟨true, false, "bundles.db", ["quay.io/a:v1"],
        Mode.ReplacesMode⟩ demoWorld).ret
      = some (GoError.simple (SimpleError.ext "containerd" "no cache directory")) :=
  ⟨(AddToRegistry_setup_failure (demoEnv "open") _ demoWorld _
      (Or.inl ⟨demoWorld.ext, rfl⟩)).1,
   (AddToRegistry_setup_failure (demoEnv "loader") _ demoWorld _
      (Or.inr (Or.inl ⟨demoWorld.ext, demoWorld.ext, rfl, rfl⟩))).1,
   (AddToRegistry_setup_failure (demoEnv "migrate") _ demoWorld _
      (Or.inr (Or.inr (Or.inl ⟨demoWorld.ext, demoWorld.ext, demoWorld.ext, rfl, rfl, rfl⟩)))).1,
   (AddToRegistry_setup_failure (demoEnv "graph") _ demoWorld _
      (Or.inr (Or.inr (Or.inr (Or.inl
        ⟨demoWorld.ext, demoWorld.ext, demoWorld.ext, demoWorld.ext, rfl, rfl, rfl, rfl⟩))))).1,
   (AddToRegistry_setup_failure (demoEnv "registry") _ demoWorld _
      (Or.inr (Or.inr (Or.inr (Or.inr
        ⟨demoWorld.ext, demoWorld.ext, demoWorld.ext, demoWorld.ext, demoWorld.ext,
          rfl, rfl, rfl, rfl, rfl⟩))))).1⟩

/-- Witness for the amended C5: a committed bundle and a refused pull with a removal
that succeeds, and a committed bundle with a removal that fails, each with a directory
already present under `./`. -/
theorem populate_workdir_scoped_witness :
    ((populate (demoEnv "") "quay.io/a:v1" Mode.ReplacesMode demoWorld).world.dirs
        = ["./manifests"] ∧
      "./bundle_tmp042" ∉
        (populate (demoEnv "") "quay.io/a:v1" Mode.ReplacesMode demoWorld).world.dirs) ∧
    ((populate (demoEnv "") "bad-pull" Mode.ReplacesMode demoWorld).world.dirs
        = ["./manifests"] ∧
      "./bundle_tmp042" ∉
        (populate (demoEnv "") "bad-pull" Mode.ReplacesMode demoWorld).world.dirs) ∧
    (populate (demoEnv "removeall") "quay.io/a:v1" Mode.ReplacesMode demoWorld).world.dirs
      = ["./manifests"] ++ ["./bundle_tmp042"] :=
  ⟨((populate_workdir_scoped (demoEnv "") "quay.io/a:v1" Mode.ReplacesMode demoWorld).2
      "./bundle_tmp042" ⟨["etcd", "prometheus"], 1⟩ rfl).2.1 (by decide) rfl,
   ((populate_workdir_scoped (demoEnv "") "bad-pull" Mode.ReplacesMode demoWorld).2
      "./bundle_tmp042" ⟨["etcd", "prometheus"], 1⟩ rfl).2.1 (by decide) rfl,
   ((populate_workdir_scoped (demoEnv "removeall") "quay.io/a:v1" Mode.ReplacesMode
      demoWorld).2 "./bundle_tmp042" ⟨["etcd", "prometheus"], 1⟩ rfl).2.2
      (SimpleError.ext "os" "unlinkat ./bundle_tmp042/manifests: permission denied") rfl⟩

/-- Witness for C8: a refused pull, and an unpack that breaks off. -/
theorem populate_surfaces_image_source_failure_witness :
    ((populate (demoEnv "") "bad-pull" Mode.ReplacesMode demoWorld).ret
        = some (SimpleError.ext "net" "connection refused") ∧
      (populate (demoEnv "") "bad-pull" Mode.ReplacesMode demoWorld).events
        = [Event.tempDir "./bundle_tmp042" none,
           Event.pull "bad-pull" (some (SimpleError.ext "net" "connection refused")),
           Event.removeAll "./bundle_tmp042"]) ∧
    ((populate (demoEnv "") "bad-unpack" Mode.ReplacesMode demoWorld).ret
        = some (SimpleError.ext "tar" "unexpected EOF") ∧
      (populate (demoEnv "") "bad-unpack" Mode.ReplacesMode demoWorld).events
        = [Event.tempDir "./bundle_tmp042" none, Event.pull "bad-unpack" none,
           Event.unpack "bad-unpack" "./bundle_tmp042"
             (some (SimpleError.ext "tar" "unexpected EOF")),
           Event.removeAll "./bundle_tmp042"]) :=
  ⟨(populate_surfaces_image_source_failure (demoEnv "") "bad-pull" Mode.ReplacesMode
      demoWorld).1 "./bundle_tmp042" ⟨["etcd", "prometheus"], 1⟩
      (SimpleError.ext "net" "connection refused") ⟨["etcd", "prometheus"], 1⟩ rfl rfl,
   (populate_surfaces_image_source_failure (demoEnv "") "bad-unpack" Mode.ReplacesMode
      demoWorld).2.1 "./bundle_tmp042" ⟨["etcd", "prometheus"], 1⟩ ⟨["etcd", "prometheus"], 1⟩
      (SimpleError.ext "tar" "unexpected EOF") ⟨["etcd", "prometheus"], 1⟩ rfl rfl rfl⟩

/-! ## `DeleteFromRegistry` -/

theorem removeResults_remove (pkg : String) (err : Option SimpleError) (l : List Event) :
    removeResults (Event.remove pkg err :: l) = (pkg, err) :: removeResults l := by
  simp [removeResults, Event.removeResult]

theorem removeResults_log (v : Level) (msg : String) (err : Option SimpleError)
    (l : List Event) : removeResults (Event.log v msg err :: l) = removeResults l := by
  simp [removeResults, Event.removeResult]

/-- In permissive mode the loop of `DeleteFromRegistry` runs the Remover on every
package, in order, each run in the state the previous one left, and returns `nil`. -/
theorem deleteLoop_permissive {σ : Type} (env : Env σ) (req : DeleteFromRegistryRequest)
    (hperm : req.Permissive = true) :
    ∀ (pkgs : List String) (w : World σ),
      (deleteLoop env req pkgs w).ret = Outcome.returned none ∧
      (removeResults (deleteLoop env req pkgs w).events).map Prod.fst = pkgs ∧
      removeResults (deleteLoop env req pkgs w).events = (removeEach env pkgs w.ext).1 ∧
      (deleteLoop env req pkgs w).world.ext = (removeEach env pkgs w.ext).2 ∧
      (deleteLoop env req pkgs w).world.dirs = w.dirs := by
  intro pkgs
  induction pkgs with
  | nil => intro w; simp [deleteLoop, removeEach, removeResults]
  | cons pkg rest ih =>
    intro w
    unfold deleteLoop removeEach
    split
    · next s1 heq =>
      obtain ⟨i1, i2, i3, i4, i5⟩ := ih { w with ext := s1 }
      have i6 : List.map Prod.fst (removeEach env rest s1).1 = rest := by
        rw [i3] at i2; exact i2
      simp [removeResults_remove, heq, i1, i3, i4, i5, i6]
    · next e s1 heq =>
      obtain ⟨i1, i2, i3, i4, i5⟩ := ih { w with ext := s1 }
      have i6 : List.map Prod.fst (removeEach env rest s1).1 = rest := by
        rw [i3] at i2; exact i2
      simp [hperm, removeResults_remove, removeResults_log, heq, i1, i3, i4, i5, i6]

/-- C4. With `Permissive = true` and a successful setup, `DeleteFromRegistry` runs the
Remover once on every package of the request, in list order, each run in the state the
previous one left, whatever the earlier runs returned: the Remover calls with their
errors and the state of the store are those of `removeEach` on the whole list (followed
by the deferred `db.Close()`); and it returns `nil`. -/
theorem DeleteFromRegistry_permissive_returns_nil {σ : Type} (env : Env σ)
    (req : DeleteFromRegistryRequest) (w : World σ) (s0 s1 s2 : σ)
    (hperm : req.Permissive = true)
    (h1 : env.sqlOpen req.InputDatabase w.ext = (none, s0))
    (h2 : env.newSQLLiteLoader s0 = (none, s1))
    (h3 : env.migrate s1 = (none, s2)) :
    (DeleteFromRegistry env req w).ret = Outcome.returned none ∧
    (removeResults (DeleteFromRegistry env req w).events).map Prod.fst = req.Packages ∧
    removeResults (DeleteFromRegistry env req w).events
      = (removeEach env req.Packages s2).1 ∧
    (DeleteFromRegistry env req w).world.ext
      = (env.dbClose (removeEach env req.Packages s2).2).2 ∧
    (DeleteFromRegistry env req w).world.dirs = w.dirs := by
  obtain ⟨hret, hrem, hres, hext, hdirs⟩ :=
    deleteLoop_permissive env req hperm req.Packages ⟨s2, w.dirs⟩
  have hproj : ∀ l : List Event, removeResults
      (Event.sqlOpen req.InputDatabase none ::
        ([Event.newSQLLiteLoader none, Event.migrate none] ++ l ++ [Event.dbClose]))
      = removeResults l := by
    intro l
    simp [removeResults, Event.removeResult, List.filterMap_append]
  unfold DeleteFromRegistry
  simp only [h1]
  unfold deleteWithDB
  simp only [h2, h3, hret]
  refine ⟨trivial, ?_, ?_, ?_, ?_⟩
  · rw [hproj, hrem]
  · rw [hproj, hres]
  · rw [hext]
  · exact hdirs

/-- Witness for C4: a permissive deletion whose second package is not in the store.
The Remover runs on all three packages, the second run fails with `PackageNotFound`,
and the two stored packages are gone from the store. -/
theorem DeleteFromRegistry_permissive_returns_nil_witness :
    (DeleteFromRegistry (demoEnv "") ⟨true, "bundles.db", ["etcd", "nope", "prometheus"]⟩
        demoWorld).ret = Outcome.returned none ∧
    removeResults (DeleteFromRegistry (demoEnv "")
        ⟨true, "bundles.db", ["etcd", "nope", "prometheus"]⟩ demoWorld).events
      = [("etcd", none),
         ("nope", some (SimpleError.ext "PackageNotFound" "package nope not found")),
         ("prometheus", none)] ∧
    (DeleteFromRegistry (demoEnv "") ⟨true, "bundles.db", ["etcd", "nope", "prometheus"]⟩
        demoWorld).world.ext = ⟨[], 0⟩ := by
  have h := DeleteFromRegistry_permissive_returns_nil (demoEnv "")
    ⟨true, "bundles.db", ["etcd", "nope", "prometheus"]⟩ demoWorld demoWorld.ext demoWorld.ext
    demoWorld.ext rfl rfl rfl rfl
  exact ⟨h.1, h.2.2.1.trans (by decide), h.2.2.2.1.trans (by decide)⟩

/-- C2, at the failing input.  A strict deletion of `etcd`, `nope`, `prometheus` from a
store that holds `etcd` and `prometheus`: the Remover is called on `etcd` and on `nope`
and not on `prometheus`, the failure is logged at the fatal level, and the process
exits with status 1; no error is returned to the caller and the database is not
closed. -/
theorem DeleteFromRegistry_strict_exits_process :
    (DeleteFromRegistry (demoEnv "") ⟨false, "bundles.db", ["etcd", "nope", "prometheus"]⟩
        demoWorld).ret = Outcome.exited 1 ∧
    (DeleteFromRegistry (demoEnv "") ⟨false, "bundles.db", ["etcd", "nope", "prometheus"]⟩
        demoWorld).events =
      [Event.sqlOpen "bundles.db" none, Event.newSQLLiteLoader none, Event.migrate none,
       Event.remove "etcd" none,
       Event.remove "nope" (some (SimpleError.ext "PackageNotFound" "package nope not found")),
       Event.log Level.fatal "permissive mode disabled"
         (some (SimpleError.errorString
           "error deleting packages from database: package nope not found")),
       Event.exit 1] := by
  decide

/-- C7, as stated, fails.  A strict deletion of a package that the store does not hold:
the Remover fails with its `PackageNotFound` error, and what `DeleteFromRegistry` hands
back is not that error. -/
theorem DeleteFromRegistry_not_PackageNotFound :
    (specRemove "missing" demoWorld.ext.store).1
      = some (SimpleError.ext "PackageNotFound" "package missing not found") ∧
    (DeleteFromRegistry (demoEnv "") ⟨false, "bundles.db", ["missing"]⟩ demoWorld).ret
      ≠ Outcome.returned (some (GoError.simple
          (SimpleError.ext "PackageNotFound" "package missing not found"))) := by
  decide

/-- C7, amended.  In a strict deletion with a successful setup whose first package is
absent, so that the Remover fails with a `PackageNotFound` error: the Remover is called
on that package and on no other, the one error `DeleteFromRegistry` reports is a new
error value whose message is "error deleting packages from database: " followed by the
message of the `PackageNotFound` error, and the `PackageNotFound` error itself is not
handed back. -/
theorem DeleteFromRegistry_strict_reports_wrapped_error {σ : Type} (env : Env σ)
    (req : DeleteFromRegistryRequest) (w : World σ) (s0 s1 s2 s3 : σ) (pkg : String)
    (rest : List String) (msg : String)
    (hperm : req.Permissive = false)
    (hpk : req.Packages = pkg :: rest)
    (h1 : env.sqlOpen req.InputDatabase w.ext = (none, s0))
    (h2 : env.newSQLLiteLoader s0 = (none, s1))
    (h3 : env.migrate s1 = (none, s2))
    (hrm : env.remove pkg s2 = (some (SimpleError.ext "PackageNotFound" msg), s3)) :
    removeResults (DeleteFromRegistry env req w).events
      = [(pkg, some (SimpleError.ext "PackageNotFound" msg))] ∧
    (logEntries (DeleteFromRegistry env req w).events).map (fun entry => entry.2.2)
      = [some (SimpleError.errorString ("error deleting packages from database: " ++ msg))] ∧
    (DeleteFromRegistry env req w).ret
      ≠ Outcome.returned (some (GoError.simple (SimpleError.ext "PackageNotFound" msg))) := by
  unfold DeleteFromRegistry
  simp only [h1]
  unfold deleteWithDB
  simp only [h2, h3, hpk]
  unfold deleteLoop
  simp [hrm, hperm, removeResults, Event.removeResult, logEntries, Event.logged, Errorf,
    SimpleError.Error]

/-- Witness for the amended C7: the strict deletion of `missing`. -/
theorem DeleteFromRegistry_strict_reports_wrapped_error_witness :
    removeResults (DeleteFromRegistry (demoEnv "") ⟨false, "bundles.db", ["missing"]⟩
        demoWorld).events
      = [("missing", some (SimpleError.ext "PackageNotFound" "package missing not found"))] ∧
    (logEntries (DeleteFromRegistry (demoEnv "") ⟨false, "bundles.db", ["missing"]⟩
        demoWorld).events).map (fun entry => entry.2.2)
      = [some (SimpleError.errorString
            ("error deleting packages from database: " ++ "package missing not found"))] :=
  have h := DeleteFromRegistry_strict_reports_wrapped_error (demoEnv "")
    ⟨false, "bundles.db", ["missing"]⟩ demoWorld demoWorld.ext demoWorld.ext demoWorld.ext
    demoWorld.ext "missing" [] "package missing not found" rfl rfl rfl rfl rfl rfl
  ⟨h.1, h.2.1⟩

/-! ## `addFunc` -/

theorem lookup_Set_other (fs : FlagSet) (name other : String) (v : FlagValue)
    (h : name ≠ other) : FlagSet.lookup (FlagSet.Set fs name v) other = FlagSet.lookup fs other := by
  induction fs with
  | nil => rfl
  | cons f rest ih =>
    have ih2 : FlagSet.lookup (List.map
        (fun f => if f.name = name then { f with value := v } else f) rest) other
        = FlagSet.lookup rest other := ih
    by_cases hf : f.name = name
    · have hne : ¬ f.name = other := fun ho => h (hf.symm.trans ho)
      simp [FlagSet.Set, FlagSet.lookup, hf, hne, ih2, h]
    · by_cases ho : f.name = other
      · have hon : ¬ other = name := fun x => h x.symm
        simp [FlagSet.Set, FlagSet.lookup, ho, hon]
      · simp [FlagSet.Set, FlagSet.lookup, hf, ho, ih2]

theorem lookup_parseFlags_other (other : String) :
    ∀ (given : List (String × FlagValue)) (fs : FlagSet),
      other ∉ given.map Prod.fst →
      FlagSet.lookup (parseFlags fs given) other = FlagSet.lookup fs other := by
  intro given
  induction given with
  | nil => intro fs _; rfl
  | cons a rest ih =>
    intro fs h
    simp only [List.map_cons, List.mem_cons, not_or] at h
    have hstep : parseFlags fs (a :: rest) = parseFlags (FlagSet.Set fs a.1 a.2) rest := rfl
    rw [hstep, ih _ h.2, lookup_Set_other fs a.1 other a.2 (fun heq => h.1 heq.symm)]

/-- C9. On a command whose five flags can be read: if the mode resolver rejects the
mode string, `addFunc` returns the error of the resolver, leaves the state as it was
and calls nothing; if the resolver accepts it, `addFunc` is the log line followed by
`AddToRegistry` on the request whose `Mode` is the result of the resolver; and on the
command built by `newRegistryAddCmd`, when the command line does not set `mode`, the
string read from the flag is "replaces". -/
theorem addFunc_mode_resolution {σ : Type} (env : Env σ) (cmd : FlagSet) (w : World σ)
    (permissive skipTLS : Bool) (fromFilename : String) (bundleImages : List String)
    (mode : String)
    (hp : GetBool cmd "permissive" = .ok permissive)
    (ht : GetBool cmd "skip-tls" = .ok skipTLS)
    (hd : GetString cmd "database" = .ok fromFilename)
    (hb : GetStringSlice cmd "bundle-images" = .ok bundleImages)
    (hm : GetString cmd "mode" = .ok mode) :
    (∀ e, env.getModeFromString mode = .error e →
      (addFunc env cmd w).ret = some (GoError.simple e) ∧
      (addFunc env cmd w).world.ext = w.ext ∧ (addFunc env cmd w).world.dirs = w.dirs ∧
      (addFunc env cmd w).events = []) ∧
    (∀ modeEnum, env.getModeFromString mode = .ok modeEnum →
      (addFunc env cmd w).ret =
        (AddToRegistry env ⟨permissive, skipTLS, fromFilename, bundleImages, modeEnum⟩ w).ret ∧
      (addFunc env cmd w).world =
        (AddToRegistry env ⟨permissive, skipTLS, fromFilename, bundleImages, modeEnum⟩ w).world ∧
      (addFunc env cmd w).events =
        Event.log Level.info "adding to the registry" none ::
          (AddToRegistry env
            ⟨permissive, skipTLS, fromFilename, bundleImages, modeEnum⟩ w).events) ∧
    (∀ given : List (String × FlagValue), "mode" ∉ given.map Prod.fst →
      GetString (parseFlags newRegistryAddCmd given) "mode" = .ok "replaces") := by
  refine ⟨?_, ?_, ?_⟩
  · intro e he
    simp [addFunc, hp, ht, hd, hb, hm, he]
  · intro modeEnum he
    simp [addFunc, hp, ht, hd, hb, hm, he]
  · intro given hg
    unfold GetString
    rw [lookup_parseFlags_other "mode" given newRegistryAddCmd hg]
    rfl

/-- Witness for C9: the command with `--mode=semver-skip` (rejected) and with
`--mode=semver` (accepted), over the resolver modelled from the spec. -/
theorem addFunc_mode_resolution_witness :
    ((addFunc (demoEnv "")
        (parseFlags newRegistryAddCmd [("mode", FlagValue.string "semver-skip")])
        demoWorld).ret
      = some (GoError.simple (SimpleError.ext "InvalidMode"
          "invalid mode semver-skip, must be one of: replaces, semver, semver-skippatch")) ∧
     (addFunc (demoEnv "")
        (parseFlags newRegistryAddCmd [("mode", FlagValue.string "semver-skip")])
        demoWorld).events = []) ∧
    (addFunc (demoEnv "")
        (parseFlags newRegistryAddCmd
          [("mode", FlagValue.string "semver"),
           ("bundle-images", FlagValue.stringSlice ["quay.io/a:v1"])])
        demoWorld).ret
      = (AddToRegistry (demoEnv "")
          ⟨false, false, "bundles.db", ["quay.io/a:v1"], Mode.SemVerMode⟩ demoWorld).ret :=
  ⟨by
    have h := (addFunc_mode_resolution (demoEnv "")
      (parseFlags newRegistryAddCmd [("mode", FlagValue.string "semver-skip")]) demoWorld
      false false "bundles.db" [] "semver-skip" rfl rfl rfl
      rfl rfl).1
      (SimpleError.ext "InvalidMode"
        "invalid mode semver-skip, must be one of: replaces, semver, semver-skippatch")
      rfl
    exact ⟨h.1, h.2.2.2⟩,
   ((addFunc_mode_resolution (demoEnv "")
      (parseFlags newRegistryAddCmd
        [("mode", FlagValue.string "semver"),
         ("bundle-images", FlagValue.stringSlice ["quay.io/a:v1"])]) demoWorld
      false false "bundles.db" ["quay.io/a:v1"] "semver" rfl rfl rfl
      rfl rfl).2.1 Mode.SemVerMode rfl).1⟩

end OperatorRegistry
